import Mathlib

/-!
Verification of the TV3 call-center analyzer pipeline
(`src/analyze/handler.py`): the speaker-turn transcript formatter
`format_content`, the stage handlers `transcribe` / `analyze` / `notify`,
the notification fan-out `send_notification`, and the top-level routing
`handler`.

Modelling conventions:
* Python `str` is Lean `String`; `str.startswith` / `str.endswith` /
  `str.replace` are re-implemented below over `List Char` so that all
  claims evaluate by kernel reduction.
* A Python dict field that may be absent is an `Option`; a `KeyError` /
  `IndexError` raised inside a `try` block is `none` propagated to the
  enclosing handler of that block.
* Amazon Transcribe renders `start_time` as a decimal string (for example
  "1.0"), and a Python f-string interpolates it verbatim, so `start_time`
  is modelled as `Option String`; Python truthiness of the value
  (`item.get('start_time')`) is "present and non-empty".
* External collaborators (boto3 client construction, S3 reads/writes,
  Transcribe job submission, Bedrock invocation, SNS publish) are modelled
  as oracle records (`TranscribeWorld`, `AnalyzeWorld`, ...) supplying the
  outcome of each call; an `Except.error e` carries the text of the raised
  exception that the source interpolates into its error envelope.
-/

namespace TV3

/-! ### Python string primitives -/

/-- Python `s.startswith(p)`. -/
def pyStartsWith (s p : String) : Bool :=
  p.data.isPrefixOf s.data

/-- Python `s.endswith(p)`. -/
def pyEndsWith (s p : String) : Bool :=
  p.data.isSuffixOf s.data

/-- Replace the first occurrence of `old` in a character list. -/
def replFirstAux (old new : List Char) : List Char → List Char
  | [] => []
  | c :: rest =>
    if old.isPrefixOf (c :: rest) then
      new ++ (c :: rest).drop old.length
    else
      c :: replFirstAux old new rest

/-- Python `s.replace(old, new, 1)`: first occurrence only. -/
def pyReplaceFirst (s old new : String) : String :=
  ⟨replFirstAux old.data new.data s.data⟩

/-- Replace every (non-overlapping, left-to-right) occurrence of `old`;
fuelled with the length of the scanned list, which suffices for the
non-empty patterns used in the source. -/
def replAllAux (old new : List Char) : Nat → List Char → List Char
  | _, [] => []
  | 0, l => l
  | Nat.succ fuel, c :: rest =>
    if old.isPrefixOf (c :: rest) then
      new ++ replAllAux old new fuel ((c :: rest).drop old.length)
    else
      c :: replAllAux old new fuel rest

/-- Python `s.replace(old, new)`: all occurrences. -/
def pyReplaceAll (s old new : String) : String :=
  ⟨replAllAux old.data new.data s.data.length s.data⟩

/-! ### Constants (handler.py lines 16-23) -/

def TRANSCRIBE_DIR : String := "recordings/"
def TRANSCRIBE_EXT : String := ".mp3"
def ANALYZE_DIR : String := "transcripts/"
def ANALYZE_EXT : String := ".json"
def OUTPUT_DIR : String := "output/"
def OUTPUT_EXT : String := ".txt"

def handled_event_names : List String :=
  ["ObjectCreated:Copy", "ObjectCreated:Put"]

/-! ### Status envelope -/

/-- Dict `{'statusCode': ..., 'body': ...}` returned by every handler. -/
structure Envelope where
  statusCode : Nat
  body : String
deriving DecidableEq

/-! ### Transcription-result data model

Shape of the JSON consumed by `format_content` (handler.py lines 129-148)
and `analyze`. Fields that the code accesses with `[...]` (raising
`KeyError` when absent) or `.get(...)` are `Option`s. -/

structure Alternative where
  content : Option String
deriving DecidableEq

structure Item where
  start_time : Option String
  speaker_label : Option String
  type : Option String
  alternatives : Option (List Alternative)
deriving DecidableEq

structure Results where
  items : Option (List Item)
  language_code : Option String
deriving DecidableEq

structure TranscribeJson where
  results : Option Results
deriving DecidableEq

/-- Python truthiness of `item.get('start_time')`: present and non-empty. -/
def pyTruthy : Option String → Bool
  | none => false
  | some s => !(s == "")

/-- Evaluation of `item['alternatives'][0]['content']`: `none` models the
`KeyError` / `IndexError` raised when a link of the chain is missing. -/
def firstAltContent (it : Item) : Option String :=
  match it.alternatives with
  | none => none
  | some [] => none
  | some (a :: _) => a.content

/-! ### Turn formatter `format_content` (handler.py lines 154-190) -/

/-- Loop state of `format_content`: accumulated `lines`, current `line`,
and `most_recent_speaker`. -/
structure FCState where
  lines : List String
  line : String
  most_recent_speaker : String
deriving DecidableEq

/-- Body of the `for item in items` loop (lines 163-178); `none` models an
exception raised while accessing a missing field, which the enclosing
`try` turns into the empty-string result. -/
def stepItem (st : FCState) (it : Item) : Option FCState :=
  if pyTruthy it.start_time then
    -- line 164-165: spoken item, `speaker = item['speaker_label']`
    match it.speaker_label with
    | none => none
    | some speaker =>
      if speaker == st.most_recent_speaker then
        -- line 169: `line += f" {item['alternatives'][0]['content']}"`
        match firstAltContent it with
        | none => none
        | some c => some ⟨st.lines, st.line ++ " " ++ c, st.most_recent_speaker⟩
      else
        -- lines 173-175: flush, switch speaker, start a new header line
        match it.start_time, firstAltContent it with
        | some t, some c =>
            some ⟨st.lines ++ [st.line ++ "\n\n"],
                  t ++ "\t" ++ speaker ++ "\t" ++ c,
                  speaker⟩
        | _, _ => none
  else
    -- line 177: `elif item['type'] == 'punctuation'`
    match it.type with
    | none => none
    | some ty =>
      if ty == "punctuation" then
        -- line 178: `line += item['alternatives'][0]['content']`
        match firstAltContent it with
        | none => none
        | some c => some ⟨st.lines, st.line ++ c, st.most_recent_speaker⟩
      else
        some st

/-- The whole `for` loop over `items`. -/
def processItems : List Item → FCState → Option FCState
  | [], st => some st
  | it :: rest, st =>
    match stepItem st it with
    | none => none
    | some st' => processItems rest st'

/-- Lines 180 and 186-188: append the final accumulator, then concatenate
all lines left to right. -/
def renderState (st : FCState) : String :=
  (st.lines ++ [st.line]).foldl (· ++ ·) ""

/-- Initial state (lines 155-158): `lines = []`, `line = ''`,
`most_recent_speaker = 'spk_1'`. -/
def initState : FCState := ⟨[], "", "spk_1"⟩

/-- Formatter applied to an item list; an exception anywhere yields `""`. -/
def formatItems (items : List Item) : String :=
  match processItems items initState with
  | none => ""
  | some st => renderState st

/-- Source `format_content(data)` (lines 154-190): the `try` also covers
`data['results']['items']`, so a missing `results` or `items` yields `""`. -/
def format_content (data : TranscribeJson) : String :=
  match data.results with
  | none => ""
  | some r =>
    match r.items with
    | none => ""
    | some items => formatItems items

/-! ### Derived storage keys (lines 64-65, 234-235, 469) -/

/-- Line 64-65: `input.replace(TRANSCRIBE_DIR, ANALYZE_DIR, 1)
.replace(TRANSCRIBE_EXT, ANALYZE_EXT)`. -/
def transcribe_output_key (k : String) : String :=
  pyReplaceAll (pyReplaceFirst k TRANSCRIBE_DIR ANALYZE_DIR) TRANSCRIBE_EXT ANALYZE_EXT

/-- Line 234-235: `input.replace(ANALYZE_DIR, OUTPUT_DIR, 1)
.replace(ANALYZE_EXT, OUTPUT_EXT)`. -/
def analyze_output_key (k : String) : String :=
  pyReplaceAll (pyReplaceFirst k ANALYZE_DIR OUTPUT_DIR) ANALYZE_EXT OUTPUT_EXT

/-- Line 469: `input.replace(OUTPUT_DIR, "", 1)
.replace(OUTPUT_EXT, TRANSCRIBE_EXT)`. -/
def notify_original_key (k : String) : String :=
  pyReplaceAll (pyReplaceFirst k OUTPUT_DIR "") OUTPUT_EXT TRANSCRIBE_EXT

deriving instance DecidableEq for Except

/-! ### Transcribe-stage handler (handler.py lines 50-115) -/

/-- Outcomes of the external calls made by `transcribe`:
`boto3.client('transcribe')` (lines 70-77) and
`start_transcription_job` (lines 83-107); `Except.error e` carries the
text of the raised exception. -/
structure TranscribeWorld where
  clientResult : Except String Unit
  startJobResult : Except String Unit
deriving DecidableEq

/-- Source `transcribe(input_s3_bucket, input_s3_key)` (lines 50-115). -/
def transcribe (w : TranscribeWorld) (_input_s3_bucket input_s3_key : String) : Envelope :=
  -- lines 52-58: reject non-mp3 keys
  if !(pyEndsWith input_s3_key TRANSCRIBE_EXT) then
    ⟨400, "Invalid file type"⟩
  else
    match w.clientResult with
    | .error e => ⟨500, "Internal server error: Error creating Amazon Transcribe client: " ++ e⟩
    | .ok _ =>
      match w.startJobResult with
      | .error e => ⟨500, "Internal server error: Error starting transcription job: " ++ e⟩
      | .ok _ => ⟨200, "OK"⟩

/-! ### Analyze-stage handler (handler.py lines 220-373) -/

/-- Decoded Bedrock response: `analyzer_response['content'][0]['text']`
when the chain of accesses succeeds. -/
structure BedrockResponse where
  contentText : Option String
deriving DecidableEq

/-- Outcomes of the external calls made by `analyze`, in program order:
`boto3.resource('s3')` (line 240), `s3.Object(...)` (line 248), object
fetch + UTF-8 decode + `json.loads` (lines 256-257), Bedrock client
construction (lines 288-294), environment lookups (lines 303, 308),
`invoke_model` (line 334), response-body decode (line 349), and the
output `obj.put` (lines 360-361). `extractFailMsg` is the exception text
when `analyzer_response['content'][0]['text']` is missing inside the save
block. -/
structure AnalyzeWorld where
  s3Resource : Except String Unit
  s3Object : Except String Unit
  fetchDecode : Except String TranscribeJson
  bedrockClient : Except String Unit
  summaryInstructionsEnv : Option String
  bedrockModelEnv : Option String
  invokeModel : Except String Unit
  decodeResponse : Except String BedrockResponse
  extractFailMsg : String
  putResult : Except String Unit
deriving DecidableEq

/-- Source `analyze(input_s3_bucket, input_s3_key)` (lines 220-373). The
prompt built from `SUMMARY_INSTRUCTIONS` (lines 302-331) only shapes the
request payload, never the returned envelope, so it is not materialized. -/
def analyze (w : AnalyzeWorld) (_input_s3_bucket input_s3_key : String) : Envelope :=
  -- lines 223-229: reject non-json keys
  if !(pyEndsWith input_s3_key ANALYZE_EXT) then
    ⟨400, "Invalid file type"⟩
  else
    match w.s3Resource with
    | .error e => ⟨500, "Internal server error: Error creating Amazon S3 client: " ++ e⟩
    | .ok _ =>
      match w.s3Object with
      | .error e => ⟨500, "Internal server error: Error reading input file: " ++ e⟩
      | .ok _ =>
        match w.fetchDecode with
        | .error e => ⟨500, "Internal server error: Error decoding input file: " ++ e⟩
        | .ok json_data =>
          -- lines 266-273: `json_data['results']['language_code']`
          match json_data.results with
          | none => ⟨500, "Internal server error: Error getting language code"⟩
          | some r =>
            match r.language_code with
            | none => ⟨500, "Internal server error: Error getting language code"⟩
            | some _language_code =>
              -- lines 277-283
              let speaker_formatted_content := format_content json_data
              if speaker_formatted_content == "" then
                ⟨500, "Internal server error: Error formatting content"⟩
              else
                match w.bedrockClient with
                | .error e => ⟨500, "Internal server error: Error creating Amazon Bedrock client: " ++ e⟩
                | .ok _ =>
                  -- line 308: `os.getenv` with a default never raises
                  let _model_id := w.bedrockModelEnv.getD "anthropic.claude-3-sonnet-20240229-v1:0"
                  match w.invokeModel with
                  | .error e => ⟨500, "Internal server error: Error analyzing transcript: " ++ e⟩
                  | .ok _ =>
                    match w.decodeResponse with
                    | .error e => ⟨500, "Internal server error: Error decoding analyzer response: " ++ e⟩
                    | .ok resp =>
                      -- lines 359-367: the content extraction happens inside the save try-block
                      match resp.contentText with
                      | none => ⟨500, "Internal server error: Error saving analyzer response: " ++ w.extractFailMsg⟩
                      | some _text =>
                        match w.putResult with
                        | .error e => ⟨500, "Internal server error: Error saving analyzer response: " ++ e⟩
                        | .ok _ => ⟨200, "OK"⟩

/-! ### Notification fan-out `send_notification` (handler.py lines 400-426) -/

/-- SNS-side state: the `OUTPUTNOTIFICATIONTOPIC_TOPIC_ARN` environment
variable (checked by Python truthiness, line 406) and the outcome of
`sns.publish` (line 408). -/
structure SnsWorld where
  topicArn : Option String
  publishResult : Except String Unit
deriving DecidableEq

/-- Source `send_notification(subject, message)` (lines 400-426). -/
def send_notification (w : SnsWorld) (_subject _message : String) : Envelope :=
  if pyTruthy w.topicArn then
    match w.publishResult with
    | .ok _ => ⟨200, "OK"⟩
    | .error e => ⟨500, "Internal server error: Error sending text to SNS topic: " ++ e⟩
  else
    ⟨500, "Internal server error: OUTPUTNOTIFICATIONTOPIC_TOPIC_ARN not set"⟩

/-! ### Notify-stage handler (handler.py lines 457-485) -/

/-- Outcome of the S3 read inside `notify` (lines 474-476): the decoded
text of the output object, or the raised exception's text. -/
structure NotifyWorld where
  readText : Except String String
deriving DecidableEq

/-- Source `notify(input_s3_bucket, input_s3_key)` (lines 457-485). -/
def notify (nw : NotifyWorld) (sw : SnsWorld) (_input_s3_bucket input_s3_key : String) : Envelope :=
  -- lines 459-465: reject non-txt keys
  if !(pyEndsWith input_s3_key OUTPUT_EXT) then
    ⟨400, "Invalid file type"⟩
  else
    match nw.readText with
    | .error e => ⟨500, "Internal server error: Error reading input file: " ++ e⟩
    | .ok text => send_notification sw ("Call Center Analyzer - " ++ input_s3_key) text

/-! ### Top-level handler (handler.py lines 521-561) -/

/-- Fields extracted from `event['Records'][0]` (lines 524-526); a missing
field is the `KeyError` caught at line 527. -/
structure S3EventRecord where
  eventName : Option String
  bucketName : Option String
  objectKey : Option String
deriving DecidableEq

/-- All external-world outcomes an invocation can observe. -/
structure World where
  tw : TranscribeWorld
  aw : AnalyzeWorld
  nw : NotifyWorld
  sns : SnsWorld
deriving DecidableEq

/-- Observable behaviour of one `handler` invocation: the returned
envelope, the stage handlers invoked, and the `(subject, message)` pairs
the top-level router itself passed to `send_notification` (line 558). -/
structure HandlerTrace where
  response : Envelope
  stageCalls : List String
  routerNotifies : List (String × String)
deriving DecidableEq

/-- Lines 557-561: after a stage handler returned `response`, alert on any
non-200 status, then return `response` unchanged. The body string uses
the source's literal `/n` (not a newline). -/
def routeResult (stage : String) (response : Envelope) (input_s3_bucket input_s3_key : String) : HandlerTrace :=
  if response.statusCode ≠ 200 then
    ⟨response, [stage],
      [("Error processing file: s3://" ++ input_s3_bucket ++ "/" ++ input_s3_key,
        "status code " ++ toString response.statusCode ++ "/n" ++ response.body)]⟩
  else
    ⟨response, [stage], []⟩

/-- Source `handler(event, context)` (lines 521-561). -/
def handler (w : World) (e : S3EventRecord) : HandlerTrace :=
  match e.eventName, e.bucketName, e.objectKey with
  | some event_name, some input_s3_bucket, some input_s3_key =>
    -- line 536: `if event_name in handled_event_names`
    if handled_event_names.contains event_name then
      if pyStartsWith input_s3_key TRANSCRIBE_DIR then
        routeResult "transcribe" (transcribe w.tw input_s3_bucket input_s3_key)
          input_s3_bucket input_s3_key
      else if pyStartsWith input_s3_key ANALYZE_DIR then
        routeResult "analyze" (analyze w.aw input_s3_bucket input_s3_key)
          input_s3_bucket input_s3_key
      else if pyStartsWith input_s3_key OUTPUT_DIR then
        routeResult "notify" (notify w.nw w.sns input_s3_bucket input_s3_key)
          input_s3_bucket input_s3_key
      else
        -- lines 543-549: direct return, no fan-out
        ⟨⟨400, "Invalid file path"⟩, [], []⟩
    else
      -- lines 550-555: direct return, no fan-out
      ⟨⟨200, "Skipped"⟩, [], []⟩
  | _, _, _ =>
    -- lines 527-532: `KeyError` on field extraction; direct return
    ⟨⟨400, "Invalid event data"⟩, [], []⟩

/-! ### Derived notions used to state the claims -/

/-- Characterization of the items whose loop iteration cannot raise:
a spoken item (truthy `start_time`) needs `speaker_label` and
`alternatives[0].content`; a non-spoken item needs `type`, and
additionally `alternatives[0].content` when the type is `punctuation`. -/
def itemOk (it : Item) : Bool :=
  if pyTruthy it.start_time then
    it.speaker_label.isSome && (firstAltContent it).isSome
  else
    match it.type with
    | none => false
    | some ty => if ty == "punctuation" then (firstAltContent it).isSome else true

/-- Well-formed spoken item carrying speaker label `sp`. -/
def spokenItem (sp : String) (it : Item) : Prop :=
  pyTruthy it.start_time = true ∧ it.speaker_label = some sp ∧ (firstAltContent it).isSome

/-- First-alternative content with default, for stating outputs. -/
def contentD (it : Item) : String := (firstAltContent it).getD ""

/-- Start time with default, for stating outputs. -/
def startD (it : Item) : String := it.start_time.getD ""

/-- Concatenation of a list of strings. -/
def strConcat : List String → String
  | [] => ""
  | s :: rest => s ++ strConcat rest

/-- Turn text produced for one uninterrupted same-speaker group of spoken
items: header from the first item, then each further content prefixed by
one space. -/
def turnOfGroup : List Item → String
  | [] => ""
  | h :: t =>
    startD h ++ "\t" ++ h.speaker_label.getD "" ++ "\t" ++ contentD h ++
      strConcat (t.map fun i => " " ++ contentD i)

/-! ### Helper lemmas -/

theorem strConcat_append (a b : List String) :
    strConcat (a ++ b) = strConcat a ++ strConcat b := by
  induction a with
  | nil => simp [strConcat]
  | cons x xs ih => simp [strConcat, ih, String.append_assoc]

theorem foldl_append_eq_strConcat (l : List String) (s : String) :
    l.foldl (· ++ ·) s = s ++ strConcat l := by
  induction l generalizing s with
  | nil => simp [strConcat]
  | cons x xs ih => simp [List.foldl, strConcat, ih, String.append_assoc]

theorem renderState_eq (st : FCState) :
    renderState st = strConcat st.lines ++ st.line := by
  simp [renderState, foldl_append_eq_strConcat, strConcat_append, strConcat]

theorem processItems_append (a b : List Item) (st : FCState) :
    processItems (a ++ b) st =
      match processItems a st with
      | none => none
      | some st' => processItems b st' := by
  induction a generalizing st with
  | nil => simp [processItems]
  | cons it rest ih =>
    simp only [List.cons_append, processItems]
    cases stepItem st it with
    | none => rfl
    | some st' => exact ih st'

theorem stepItem_none_of_bad (it : Item) (h : itemOk it = false) (st : FCState) :
    stepItem st it = none := by
  cases htr : pyTruthy it.start_time with
  | true =>
    have hst : ∃ t, it.start_time = some t := by
      cases hs : it.start_time with
      | none => simp [pyTruthy, hs] at htr
      | some t => exact ⟨t, rfl⟩
    obtain ⟨t, ht⟩ := hst
    rw [ht] at htr
    cases hsp : it.speaker_label with
    | none => simp [stepItem, htr, hsp, ht]
    | some sp =>
      cases hc : firstAltContent it with
      | none =>
        by_cases hsame : sp = st.most_recent_speaker <;>
          simp [stepItem, htr, hsp, hc, ht, hsame]
      | some c => simp [itemOk, htr, hsp, hc, ht] at h
  | false =>
    cases hty : it.type with
    | none => simp [stepItem, htr, hty]
    | some ty =>
      by_cases hp : ty = "punctuation"
      · cases hc : firstAltContent it with
        | none => simp [stepItem, htr, hty, hp, hc]
        | some c => simp [itemOk, htr, hty, hp, hc] at h
      · simp [itemOk, htr, hty, hp] at h

theorem stepItem_some_of_ok (it : Item) (h : itemOk it = true) (st : FCState) :
    ∃ st', stepItem st it = some st' := by
  cases htr : pyTruthy it.start_time with
  | true =>
    have hst : ∃ t, it.start_time = some t := by
      cases hs : it.start_time with
      | none => simp [pyTruthy, hs] at htr
      | some t => exact ⟨t, rfl⟩
    obtain ⟨t, ht⟩ := hst
    rw [ht] at htr
    cases hsp : it.speaker_label with
    | none => simp [itemOk, htr, hsp, ht] at h
    | some sp =>
      cases hc : firstAltContent it with
      | none => simp [itemOk, htr, hsp, hc, ht] at h
      | some c =>
        by_cases hsame : sp = st.most_recent_speaker
        · refine ⟨⟨st.lines, st.line ++ " " ++ c, st.most_recent_speaker⟩, ?_⟩
          simp [stepItem, htr, hsp, hc, ht, hsame]
        · refine ⟨⟨st.lines ++ [st.line ++ "\n\n"], t ++ "\t" ++ sp ++ "\t" ++ c, sp⟩, ?_⟩
          simp [stepItem, htr, hsp, hc, ht, hsame]
  | false =>
    cases hty : it.type with
    | none => simp [itemOk, htr, hty] at h
    | some ty =>
      by_cases hp : ty = "punctuation"
      · cases hc : firstAltContent it with
        | none => simp [itemOk, htr, hty, hp, hc] at h
        | some c =>
          refine ⟨⟨st.lines, st.line ++ c, st.most_recent_speaker⟩, ?_⟩
          simp [stepItem, htr, hty, hp, hc]
      · exact ⟨st, by simp [stepItem, htr, hty, hp]⟩

theorem processItems_none_of_bad (items : List Item)
    (h : ∃ it ∈ items, itemOk it = false) (st : FCState) :
    processItems items st = none := by
  induction items generalizing st with
  | nil => simp at h
  | cons it rest ih =>
    obtain ⟨bad, hmem, hbad⟩ := h
    rcases List.mem_cons.mp hmem with heq | hmem'
    · rw [heq] at hbad
      simp [processItems, stepItem_none_of_bad it hbad st]
    · by_cases hok : itemOk it = true
      · obtain ⟨st', hst'⟩ := stepItem_some_of_ok it hok st
        simp [processItems, hst', ih ⟨bad, hmem', hbad⟩ st']
      · simp only [Bool.not_eq_true] at hok
        simp [processItems, stepItem_none_of_bad it hok st]

theorem processItems_sameSpeaker (sp : String) (items : List Item)
    (h : ∀ it ∈ items, spokenItem sp it) (L : List String) (l : String) :
    processItems items ⟨L, l, sp⟩ =
      some ⟨L, l ++ strConcat (items.map fun i => " " ++ contentD i), sp⟩ := by
  induction items generalizing l with
  | nil => simp [processItems, strConcat]
  | cons it rest ih =>
    obtain ⟨htr, hsp, hcs⟩ := h it (List.mem_cons_self it rest)
    obtain ⟨c, hc⟩ := Option.isSome_iff_exists.mp hcs
    have hstep : stepItem ⟨L, l, sp⟩ it = some ⟨L, l ++ " " ++ c, sp⟩ := by
      simp [stepItem, htr, hsp, hc]
    simp only [processItems, hstep]
    rw [ih (fun i hi => h i (List.mem_cons_of_mem _ hi)) (l ++ " " ++ c)]
    simp [strConcat, contentD, hc, String.append_assoc]

theorem processItems_newGroup (sp : String) (g : List Item) (hne : g ≠ [])
    (h : ∀ it ∈ g, spokenItem sp it) (L : List String) (l m : String) (hm : sp ≠ m) :
    processItems g ⟨L, l, m⟩ = some ⟨L ++ [l ++ "\n\n"], turnOfGroup g, sp⟩ := by
  cases g with
  | nil => exact absurd rfl hne
  | cons h0 t =>
    obtain ⟨htr, hsp, hcs⟩ := h h0 (List.mem_cons_self h0 t)
    obtain ⟨c, hc⟩ := Option.isSome_iff_exists.mp hcs
    have hst : ∃ ts, h0.start_time = some ts := by
      cases hs : h0.start_time with
      | none => simp [pyTruthy, hs] at htr
      | some ts => exact ⟨ts, rfl⟩
    obtain ⟨ts, hts⟩ := hst
    rw [hts] at htr
    have hstep : stepItem ⟨L, l, m⟩ h0 =
        some ⟨L ++ [l ++ "\n\n"], ts ++ "\t" ++ sp ++ "\t" ++ c, sp⟩ := by
      simp [stepItem, htr, hsp, hc, hts, hm]
    simp only [processItems, hstep]
    rw [processItems_sameSpeaker sp t (fun i hi => h i (List.mem_cons_of_mem _ hi))]
    simp [turnOfGroup, startD, contentD, hts, hc, hsp, String.append_assoc]

theorem processItems_render_ext (items : List Item)
    (h : ∀ it ∈ items, itemOk it = true) (st : FCState) :
    ∃ st', processItems items st = some st' ∧
      ∃ suffix, renderState st' = strConcat st.lines ++ st.line ++ suffix := by
  induction items generalizing st with
  | nil =>
    refine ⟨st, rfl, "", ?_⟩
    simp [renderState_eq, String.append_assoc]
  | cons it rest ih =>
    have hrest : ∀ x ∈ rest, itemOk x = true := fun x hx => h x (List.mem_cons_of_mem _ hx)
    have hok := h it (List.mem_cons_self it rest)
    cases htr : pyTruthy it.start_time with
    | true =>
      have hstt : ∃ t, it.start_time = some t := by
        cases hs : it.start_time with
        | none => simp [pyTruthy, hs] at htr
        | some t => exact ⟨t, rfl⟩
      obtain ⟨t, ht⟩ := hstt
      rw [ht] at htr
      cases hsp : it.speaker_label with
      | none => simp [itemOk, htr, hsp, ht] at hok
      | some sp =>
        cases hc : firstAltContent it with
        | none => simp [itemOk, htr, hsp, hc, ht] at hok
        | some c =>
          by_cases hsame : sp = st.most_recent_speaker
          · have hstep : stepItem st it =
                some ⟨st.lines, st.line ++ " " ++ c, st.most_recent_speaker⟩ := by
              simp [stepItem, htr, hsp, hc, ht, hsame]
            obtain ⟨st', hrun, suf, hrender⟩ :=
              ih hrest ⟨st.lines, st.line ++ " " ++ c, st.most_recent_speaker⟩
            refine ⟨st', by simp [processItems, hstep, hrun], " " ++ c ++ suf, ?_⟩
            rw [hrender]
            simp [String.append_assoc]
          · have hstep : stepItem st it =
                some ⟨st.lines ++ [st.line ++ "\n\n"], t ++ "\t" ++ sp ++ "\t" ++ c, sp⟩ := by
              simp [stepItem, htr, hsp, hc, ht, hsame]
            obtain ⟨st', hrun, suf, hrender⟩ :=
              ih hrest ⟨st.lines ++ [st.line ++ "\n\n"], t ++ "\t" ++ sp ++ "\t" ++ c, sp⟩
            refine ⟨st', by simp [processItems, hstep, hrun],
              "\n\n" ++ (t ++ "\t" ++ sp ++ "\t" ++ c) ++ suf, ?_⟩
            rw [hrender]
            simp [strConcat_append, strConcat, String.append_assoc]
    | false =>
      cases hty : it.type with
      | none => simp [itemOk, htr, hty] at hok
      | some ty =>
        by_cases hp : ty = "punctuation"
        · cases hc : firstAltContent it with
          | none => simp [itemOk, htr, hty, hp, hc] at hok
          | some c =>
            have hstep : stepItem st it =
                some ⟨st.lines, st.line ++ c, st.most_recent_speaker⟩ := by
              simp [stepItem, htr, hty, hp, hc]
            obtain ⟨st', hrun, suf, hrender⟩ :=
              ih hrest ⟨st.lines, st.line ++ c, st.most_recent_speaker⟩
            refine ⟨st', by simp [processItems, hstep, hrun], c ++ suf, ?_⟩
            rw [hrender]
            simp [String.append_assoc]
        · have hstep : stepItem st it = some st := by
            simp [stepItem, htr, hty, hp]
          obtain ⟨st', hrun, suf, hrender⟩ := ih hrest st
          exact ⟨st', by simp [processItems, hstep, hrun], suf, hrender⟩

theorem pyStartsWith_excl (k p q : String) (cp cq : Char) (lp lq : List Char)
    (hp : p.data = cp :: lp) (hq : q.data = cq :: lq) (hne : (cp == cq) = false)
    (h : pyStartsWith k p = true) : pyStartsWith k q = false := by
  unfold pyStartsWith at h ⊢
  rw [hp] at h
  rw [hq]
  cases hk : k.data with
  | nil =>
    rw [hk] at h
    exact absurd h (by simp [List.isPrefixOf])
  | cons a as =>
    rw [hk] at h
    have h' : ((cp == a) && lp.isPrefixOf as) = true := h
    simp only [Bool.and_eq_true] at h'
    have hcpa : cp = a := eq_of_beq h'.1
    have hcqa : (cq == a) = false := by
      cases hqa : (cq == a) with
      | false => rfl
      | true =>
        have hcq : cp = cq := by rw [hcpa, eq_of_beq hqa]
        rw [hcq] at hne
        simp at hne
    show ((cq == a) && lq.isPrefixOf as) = false
    rw [hcqa]
    simp

theorem not_transcribe_of_analyze (k : String) (h : pyStartsWith k ANALYZE_DIR = true) :
    pyStartsWith k TRANSCRIBE_DIR = false :=
  pyStartsWith_excl k ANALYZE_DIR TRANSCRIBE_DIR 't' 'r' _ _ rfl rfl (by decide) h

theorem not_transcribe_of_output (k : String) (h : pyStartsWith k OUTPUT_DIR = true) :
    pyStartsWith k TRANSCRIBE_DIR = false :=
  pyStartsWith_excl k OUTPUT_DIR TRANSCRIBE_DIR 'o' 'r' _ _ rfl rfl (by decide) h

theorem not_analyze_of_output (k : String) (h : pyStartsWith k OUTPUT_DIR = true) :
    pyStartsWith k ANALYZE_DIR = false :=
  pyStartsWith_excl k OUTPUT_DIR ANALYZE_DIR 'o' 't' _ _ rfl rfl (by decide) h

theorem routeResult_spec (s : String) (r : Envelope) (b k : String) :
    (routeResult s r b k).response = r ∧
    (r.statusCode ≠ 200 →
      (routeResult s r b k).routerNotifies =
        [("Error processing file: s3://" ++ b ++ "/" ++ k,
          "status code " ++ toString r.statusCode ++ "/n" ++ r.body)]) ∧
    (r.statusCode = 200 → (routeResult s r b k).routerNotifies = []) := by
  unfold routeResult
  by_cases h : r.statusCode = 200 <;> simp [h]

/-! ### Concrete inputs used by witnesses and counterexamples -/

/-- Pronunciation item: start 1.0, speaker spk_0, first alternative "hello". -/
def itemHello : Item := ⟨some "1.0", some "spk_0", some "pronunciation", some [⟨some "hello"⟩]⟩

/-- Punctuation item with content ".". -/
def itemDot : Item := ⟨none, none, some "punctuation", some [⟨some "."⟩]⟩

/-- Pronunciation item: start 2.0, speaker spk_1, first alternative "world". -/
def itemWorld : Item := ⟨some "2.0", some "spk_1", some "pronunciation", some [⟨some "world"⟩]⟩

/-- Pronunciation item labeled with the sentinel speaker spk_1. -/
def itemSentinel : Item := ⟨some "1.0", some "spk_1", some "pronunciation", some [⟨some "hello"⟩]⟩

/-- Transcription result of claim C1: one spoken token, one punctuation. -/
def c1Data : TranscribeJson := ⟨some ⟨some [itemHello, itemDot], some "en-US"⟩⟩

/-- Transcription result with two single-item speaker groups, spk_0 then spk_1. -/
def c2Data : TranscribeJson := ⟨some ⟨some [itemHello, itemWorld], some "en-US"⟩⟩

/-- Transcription result whose only item is the sentinel-labeled spoken token. -/
def c10Data : TranscribeJson := ⟨some ⟨some [itemSentinel], some "en-US"⟩⟩

/-- Transcription result with an empty item list. -/
def emptyData : TranscribeJson := ⟨some ⟨some [], some "en-US"⟩⟩

/-- Spoken item missing its `speaker_label`: its loop iteration raises. -/
def badItem : Item := ⟨some "1.0", none, none, some [⟨some "x"⟩]⟩

/-- Transcription result containing the raising item. -/
def badData : TranscribeJson := ⟨some ⟨some [badItem], some "en-US"⟩⟩

/-- Spoken item lacking the `type` field entirely (but otherwise complete). -/
def typelessItem : Item := ⟨some "1.0", some "spk_1", none, some [⟨some "hi"⟩]⟩

/-- Transcription result whose only item lacks `type`. -/
def typelessData : TranscribeJson := ⟨some ⟨some [typelessItem], some "en-US"⟩⟩

/-- Analyze-stage world in which every external call succeeds and the
fetched transcript decodes to `d`. -/
def okAnalyzeWorld (d : TranscribeJson) : AnalyzeWorld :=
  ⟨.ok (), .ok (), .ok d, .ok (), none, none, .ok (), .ok ⟨some "analysis"⟩, "", .ok ()⟩

/-- World in which every external call succeeds. -/
def baseWorld : World :=
  ⟨⟨.ok (), .ok ()⟩, okAnalyzeWorld emptyData, ⟨.ok "text"⟩, ⟨some "arn:topic", .ok ()⟩⟩

/-! ### Claims -/

/-- C1 counterexample: on the single-speaker input of the claim,
`format_content` does NOT return `"1.0\tspk_0\thello."` — because the
first spoken item's label spk_0 differs from the sentinel spk_1, the
empty initial accumulator is flushed first, producing a leading blank
line. -/
theorem c1_counterexample : format_content c1Data ≠ "1.0\tspk_0\thello." := by decide

/-- C1 (amended): on items `[pronunciation(1.0, spk_0, "hello"),
punctuation(".")]`, `format_content` returns `"\n\n1.0\tspk_0\thello."`:
the flush of the empty initial accumulator inserts a leading blank line
before the first turn, and the punctuation attaches with no separating
space. -/
theorem c1_single_speaker_output : format_content c1Data = "\n\n1.0\tspk_0\thello." := by decide

/-- C2 (amended): for every input whose spoken items form exactly two
consecutive well-formed same-speaker groups, all spk_0 then all spk_1,
`format_content` returns a leading `"\n\n"` (the flushed empty initial
accumulator), then the first speaker's turn, then `"\n\n"`, then the
second speaker's turn, with no trailing `"\n\n"`. -/
theorem c2_two_group_output (data : TranscribeJson) (r : Results)
    (g0 g1 : List Item) (h0 : g0 ≠ []) (h1 : g1 ≠ [])
    (hres : data.results = some r) (hitems : r.items = some (g0 ++ g1))
    (hg0 : ∀ it ∈ g0, spokenItem "spk_0" it)
    (hg1 : ∀ it ∈ g1, spokenItem "spk_1" it) :
    format_content data = "\n\n" ++ turnOfGroup g0 ++ "\n\n" ++ turnOfGroup g1 := by
  have e0 := processItems_newGroup "spk_0" g0 h0 hg0 [] "" "spk_1" (by decide)
  have e1 := processItems_newGroup "spk_1" g1 h1 hg1 ([] ++ ["" ++ "\n\n"])
    (turnOfGroup g0) "spk_0" (by decide)
  simp only [format_content, hres, hitems, formatItems, initState]
  rw [processItems_append]
  simp only [e0, e1]
  simp [renderState_eq, strConcat_append, strConcat, String.append_assoc]

/-- C2 witness: concrete two-group input instantiating the amended claim. -/
theorem c2_two_group_output_witness :
    format_content c2Data = "\n\n" ++ turnOfGroup [itemHello] ++ "\n\n" ++ turnOfGroup [itemWorld] :=
  c2_two_group_output c2Data _ [itemHello] [itemWorld] (by decide) (by decide) rfl rfl
    (by intro it hmem
        rw [List.mem_singleton] at hmem
        subst hmem
        exact ⟨by decide, rfl, by decide⟩)
    (by intro it hmem
        rw [List.mem_singleton] at hmem
        subst hmem
        exact ⟨by decide, rfl, by decide⟩)

/-- C2 counterexample: on the concrete two-group input, the output is not
the first turn followed by `"\n\n"` followed by the second turn — there is
a leading `"\n\n"` before the first turn. -/
theorem c2_counterexample :
    format_content c2Data ≠ turnOfGroup [itemHello] ++ "\n\n" ++ turnOfGroup [itemWorld] := by
  decide

/-- C9: `format_content` on a transcription result whose items list is
empty returns the empty string. -/
theorem c9_empty_items (data : TranscribeJson) (r : Results)
    (hres : data.results = some r) (hitems : r.items = some []) :
    format_content data = "" := by
  simp [format_content, hres, hitems, formatItems, processItems, initState, renderState]

/-- C9 witness: concrete empty-items input. -/
theorem c9_empty_items_witness : format_content emptyData = "" :=
  c9_empty_items emptyData _ rfl rfl

/-- C10: for every input whose first item is a well-formed spoken token
labeled spk_1 — the sentinel both speaker variables are initialized to —
and whose remaining items are well formed, the output carries no
`"<startTime>\t<speakerLabel>\t"` header for the opening turn: it begins
directly with a space-prefixed word, the label having collided with the
sentinel and been treated as a continuation of an unstarted turn. -/
theorem c10_sentinel_collision (data : TranscribeJson) (r : Results)
    (it : Item) (rest : List Item) (c : String)
    (hres : data.results = some r) (hitems : r.items = some (it :: rest))
    (htr : pyTruthy it.start_time = true)
    (hsp : it.speaker_label = some "spk_1")
    (hc : firstAltContent it = some c)
    (hrest : ∀ x ∈ rest, itemOk x = true) :
    ∃ suffix, format_content data = " " ++ c ++ suffix := by
  have hstep : stepItem initState it = some ⟨[], " " ++ c, "spk_1"⟩ := by
    simp [stepItem, initState, htr, hsp, hc]
  obtain ⟨st', hrun, suf, hrender⟩ :=
    processItems_render_ext rest hrest ⟨[], " " ++ c, "spk_1"⟩
  refine ⟨suf, ?_⟩
  simp only [format_content, hres, hitems, formatItems, processItems, hstep, hrun]
  rw [hrender]
  simp [strConcat, String.append_assoc]

/-- C10 witness: single sentinel-labeled spoken item; the output is the
bare space-prefixed word with no header. -/
theorem c10_sentinel_collision_witness :
    ∃ suffix, format_content c10Data = " " ++ "hello" ++ suffix :=
  c10_sentinel_collision c10Data _ itemSentinel [] "hello" rfl rfl (by decide) rfl rfl
    (by decide)

/-- C3 counterexample: the key `recordings/a.wav` matches none of the three
prefix/extension combinations, yet the handler returns
`{400, "Invalid file type"}` (from the transcribe stage), not
`{400, "Invalid file path"}` — dispatch checks only the directory prefix. -/
theorem c3_counterexample :
    (handler baseWorld ⟨some "ObjectCreated:Put", some "bkt", some "recordings/a.wav"⟩).response
        = ⟨400, "Invalid file type"⟩ ∧
    (handler baseWorld ⟨some "ObjectCreated:Put", some "bkt", some "recordings/a.wav"⟩).response
        ≠ ⟨400, "Invalid file path"⟩ := by
  decide

/-- C3 (amended): for every well-formed trigger event with a recognized
eventName, a key starting with none of the three directory prefixes yields
`{400, "Invalid file path"}` directly (no stage call, no fan-out); a key
with a matching prefix but the wrong extension is instead dispatched to
the stage handler, which returns `{400, "Invalid file type"}`. -/
theorem c3_path_classification (w : World) (en b k : String)
    (hen : handled_event_names.contains en = true) :
    (pyStartsWith k TRANSCRIBE_DIR = false → pyStartsWith k ANALYZE_DIR = false →
      pyStartsWith k OUTPUT_DIR = false →
      handler w ⟨some en, some b, some k⟩ = ⟨⟨400, "Invalid file path"⟩, [], []⟩) ∧
    (pyStartsWith k TRANSCRIBE_DIR = true → pyEndsWith k TRANSCRIBE_EXT = false →
      (handler w ⟨some en, some b, some k⟩).response = ⟨400, "Invalid file type"⟩) ∧
    (pyStartsWith k ANALYZE_DIR = true → pyEndsWith k ANALYZE_EXT = false →
      (handler w ⟨some en, some b, some k⟩).response = ⟨400, "Invalid file type"⟩) ∧
    (pyStartsWith k OUTPUT_DIR = true → pyEndsWith k OUTPUT_EXT = false →
      (handler w ⟨some en, some b, some k⟩).response = ⟨400, "Invalid file type"⟩) := by
  have hmem : en ∈ handled_event_names := by simpa using hen
  refine ⟨?_, ?_, ?_, ?_⟩
  · intro hT hA hO
    simp [handler, hmem, hT, hA, hO]
  · intro hT hext
    simp [handler, hmem, hT, routeResult, transcribe, hext]
  · intro hA hext
    have hT := not_transcribe_of_analyze k hA
    simp [handler, hmem, hT, hA, routeResult, analyze, hext]
  · intro hO hext
    have hT := not_transcribe_of_output k hO
    have hA := not_analyze_of_output k hO
    simp [handler, hmem, hT, hA, hO, routeResult, notify, hext]

/-- C3 witness: a key under no recognized directory prefix is rejected
with `{400, "Invalid file path"}` and triggers neither stage nor fan-out. -/
theorem c3_path_classification_witness :
    handler baseWorld ⟨some "ObjectCreated:Put", some "bkt", some "foo/a.txt"⟩ =
      ⟨⟨400, "Invalid file path"⟩, [], []⟩ :=
  (c3_path_classification baseWorld "ObjectCreated:Put" "bkt" "foo/a.txt" (by decide)).1
    (by decide) (by decide) (by decide)

/-- C4 counterexample: a stage handler returning a 400 envelope (wrong
file type under `recordings/`) DOES trigger the top-level
`send_notification` call — the router alerts on every non-200 status,
not only on 500. -/
theorem c4_counterexample :
    (handler baseWorld ⟨some "ObjectCreated:Put", some "bkt", some "recordings/a.wav"⟩).response.statusCode
        = 400 ∧
    (handler baseWorld ⟨some "ObjectCreated:Put", some "bkt", some "recordings/a.wav"⟩).routerNotifies
        ≠ [] := by
  decide

/-- C4 (amended): for every invocation whose key is dispatched to a stage
handler, any non-200 envelope — 400 and 500 alike — triggers exactly one
top-level `send_notification` call, with a subject naming the object and a
body containing the status code and message; only envelopes produced by
the router itself (Skipped, Invalid event data, Invalid file path) skip
the fan-out. -/
theorem c4_alert_on_any_failure (w : World) (en b k : String)
    (hen : handled_event_names.contains en = true)
    (hpre : pyStartsWith k TRANSCRIBE_DIR = true ∨ pyStartsWith k ANALYZE_DIR = true ∨
      pyStartsWith k OUTPUT_DIR = true)
    (hfail : (handler w ⟨some en, some b, some k⟩).response.statusCode ≠ 200) :
    (handler w ⟨some en, some b, some k⟩).routerNotifies =
      [("Error processing file: s3://" ++ b ++ "/" ++ k,
        "status code " ++ toString (handler w ⟨some en, some b, some k⟩).response.statusCode ++
          "/n" ++ (handler w ⟨some en, some b, some k⟩).response.body)] := by
  have hmem : en ∈ handled_event_names := by simpa using hen
  rcases hpre with hT | hA | hO
  · have he : handler w ⟨some en, some b, some k⟩ =
        routeResult "transcribe" (transcribe w.tw b k) b k := by
      simp [handler, hmem, hT]
    rw [he, (routeResult_spec _ _ _ _).1] at hfail
    rw [he, (routeResult_spec _ _ _ _).1]
    exact (routeResult_spec _ _ _ _).2.1 hfail
  · have hT := not_transcribe_of_analyze k hA
    have he : handler w ⟨some en, some b, some k⟩ =
        routeResult "analyze" (analyze w.aw b k) b k := by
      simp [handler, hmem, hT, hA]
    rw [he, (routeResult_spec _ _ _ _).1] at hfail
    rw [he, (routeResult_spec _ _ _ _).1]
    exact (routeResult_spec _ _ _ _).2.1 hfail
  · have hT := not_transcribe_of_output k hO
    have hA := not_analyze_of_output k hO
    have he : handler w ⟨some en, some b, some k⟩ =
        routeResult "notify" (notify w.nw w.sns b k) b k := by
      simp [handler, hmem, hT, hA, hO]
    rw [he, (routeResult_spec _ _ _ _).1] at hfail
    rw [he, (routeResult_spec _ _ _ _).1]
    exact (routeResult_spec _ _ _ _).2.1 hfail

/-- C4 witness: the 400 "Invalid file type" from the transcribe stage is
fanned out by the router with the source's literal `/n` in the body. -/
theorem c4_alert_on_any_failure_witness :
    (handler baseWorld ⟨some "ObjectCreated:Put", some "bkt", some "recordings/a.wav"⟩).routerNotifies =
      [("Error processing file: s3://bkt/recordings/a.wav",
        "status code 400/nInvalid file type")] :=
  c4_alert_on_any_failure baseWorld "ObjectCreated:Put" "bkt" "recordings/a.wav"
    (by decide) (Or.inl (by decide)) (by decide)

/-- C5: key derivation round-trips along the pipeline within the same
bucket: `recordings/a/b.mp3` maps to `transcripts/a/b.json` (transcribe
stage), which maps to `output/a/b.txt` (analyze stage), from which the
notify stage reconstructs the original-recording key `a/b.mp3`. -/
theorem c5_key_roundtrip :
    transcribe_output_key "recordings/a/b.mp3" = "transcripts/a/b.json" ∧
    analyze_output_key "transcripts/a/b.json" = "output/a/b.txt" ∧
    notify_original_key "output/a/b.txt" = "a/b.mp3" := by
  decide

/-- C6 counterexample: an item lacking the required field `type` (a spoken
item whose `type` key is absent) does NOT fail the formatting call: the
formatter never consults `type` on spoken items, formatting succeeds with
`" hi"`, and `analyze` proceeds to `{200, "OK"}` instead of
`{500, "Error formatting content"}`. -/
theorem c6_counterexample :
    typelessItem.type = none ∧
    format_content typelessData = " hi" ∧
    analyze (okAnalyzeWorld typelessData) "bkt" "transcripts/a/b.json" = ⟨200, "OK"⟩ := by
  decide

/-- C6 (amended): an item missing a field its processing branch requires —
`speaker_label` or `alternatives[0].content` for spoken items, `type` for
non-spoken items, `alternatives[0].content` for punctuation items — makes
the whole formatting call fail with no partial result (`format_content`
returns `""`), and the analyze handler then returns
`{500, "Internal server error: Error formatting content"}`; an empty
formatted result yields that same envelope. Fields a branch never
consults (such as `type` on a spoken item) may be absent without failure. -/
theorem c6_format_hard_error (w : AnalyzeWorld) (b k : String)
    (data : TranscribeJson) (r : Results) (its : List Item)
    (hk : pyEndsWith k ANALYZE_EXT = true)
    (hs3 : w.s3Resource = .ok ()) (hobj : w.s3Object = .ok ())
    (hfetch : w.fetchDecode = .ok data)
    (hres : data.results = some r) (hitems : r.items = some its)
    (hlang : ∃ lc, r.language_code = some lc) :
    ((∃ it ∈ its, itemOk it = false) → format_content data = "") ∧
    (format_content data = "" →
      analyze w b k = ⟨500, "Internal server error: Error formatting content"⟩) := by
  constructor
  · intro hbad
    simp [format_content, hres, hitems, formatItems,
      processItems_none_of_bad its hbad initState]
  · intro hfmt
    obtain ⟨lc, hlc⟩ := hlang
    simp [analyze, hk, hs3, hobj, hfetch, hres, hlc, hfmt]

/-- C6 witness: a spoken item missing `speaker_label` aborts formatting
with no partial result and analyze returns the formatting-error envelope. -/
theorem c6_format_hard_error_witness :
    format_content badData = "" ∧
    analyze (okAnalyzeWorld badData) "bkt" "transcripts/a/b.json" =
      ⟨500, "Internal server error: Error formatting content"⟩ :=
  ⟨(c6_format_hard_error (okAnalyzeWorld badData) "bkt" "transcripts/a/b.json" badData _
      [badItem] (by decide) rfl rfl rfl rfl rfl ⟨"en-US", rfl⟩).1
      ⟨badItem, by decide, by decide⟩,
   (c6_format_hard_error (okAnalyzeWorld badData) "bkt" "transcripts/a/b.json" badData _
      [badItem] (by decide) rfl rfl rfl rfl rfl ⟨"en-US", rfl⟩).2 (by decide)⟩

/-- C7: for every trigger event missing the bucket name, object key, or
eventName field, the handler returns `{400, "Invalid event data"}` before
any stage classification or dispatch: no stage handler is called and no
fan-out happens. -/
theorem c7_invalid_event_data (w : World) (e : S3EventRecord)
    (h : e.eventName = none ∨ e.bucketName = none ∨ e.objectKey = none) :
    handler w e = ⟨⟨400, "Invalid event data"⟩, [], []⟩ := by
  obtain ⟨en, b, k⟩ := e
  rcases h with h | h | h
  · have h' : en = none := h
    subst h'
    cases b <;> cases k <;> rfl
  · have h' : b = none := h
    subst h'
    cases en <;> cases k <;> rfl
  · have h' : k = none := h
    subst h'
    cases en <;> cases b <;> rfl

/-- C7 witness: an event missing its eventName field. -/
theorem c7_invalid_event_data_witness :
    handler baseWorld ⟨none, some "bkt", some "recordings/a.mp3"⟩ =
      ⟨⟨400, "Invalid event data"⟩, [], []⟩ :=
  c7_invalid_event_data baseWorld ⟨none, some "bkt", some "recordings/a.mp3"⟩ (Or.inl rfl)

/-- C8: for every well-formed trigger event whose eventName is outside
`{"ObjectCreated:Copy", "ObjectCreated:Put"}`, the handler returns
`{200, "Skipped"}` with no stage handler invoked and no fan-out. -/
theorem c8_skips_unrecognized (w : World) (en b k : String)
    (hen : handled_event_names.contains en = false) :
    handler w ⟨some en, some b, some k⟩ = ⟨⟨200, "Skipped"⟩, [], []⟩ := by
  have hmem : en ∉ handled_event_names := by simpa using hen
  simp [handler, hmem]

/-- C8 witness: an `ObjectRemoved:Delete` event is skipped. -/
theorem c8_skips_unrecognized_witness :
    handler baseWorld ⟨some "ObjectRemoved:Delete", some "bkt", some "recordings/a.mp3"⟩ =
      ⟨⟨200, "Skipped"⟩, [], []⟩ :=
  c8_skips_unrecognized baseWorld "ObjectRemoved:Delete" "bkt" "recordings/a.mp3" (by decide)

end TV3
